import Mathlib

/-
  Verification of the collaborative-editor synchronization core.

  The definitions below are a shallow embedding of the renderer component
  (CollaborativeEditor.tsx) and the socket service (socket.ts):
  JavaScript 32-bit integer coercions are modelled explicitly on Int,
  strings are modelled by their char-code lists where hashing matters,
  and the asynchronous handlers are modelled as pure functions from an
  explicit state plus an environment of externally-determined outcomes to
  a new state and a trace of observable effects.
-/

namespace CollabEditor

/-- JavaScript ToInt32 coercion: reduce an integer to the signed 32-bit
range, as performed by the bitwise operators used in the hash loops. -/
def toInt32 (n : Int) : Int := (n + 2 ^ 31) % 2 ^ 32 - 2 ^ 31

/-- One iteration of the string-hash loop
`hash = ((hash << 5) - hash) + charCode; hash = hash & hash`.
The shift coerces to 32 bits, the following add stays exact, and the
self-and coerces the result back to 32 bits. -/
def hashStep (h c : Int) : Int := toInt32 (toInt32 (h * 32) - h + c)

/-- The shared string hash used by simpleHash, getUserColor and
generateHashColor: fold the step over the char codes starting from 0. -/
def stringHash (codes : List Int) : Int := codes.foldl hashStep 0

/-- UTF-16 code units of a string (identical to code points on the BMP
inputs this system uses for user identifiers). -/
def charCodes (s : String) : List Int := s.data.map (fun c => (c.toNat : Int))

/-- simpleHash from CollaborativeEditor.tsx: decimal rendering of the
32-bit string hash (the empty string renders hash 0). -/
def simpleHash (s : String) : String := toString (stringHash (charCodes s))

/-- The curated palette of 30 colors, in source order. -/
def colorPalette : List String :=
  [ "#E53E3E", "#FF8C00", "#FFD700", "#38A169", "#00B5D8", "#3182CE",
    "#805AD5", "#D53F8C",
    "#C53030", "#ED8936", "#ECC94B", "#48BB78", "#0BC5EA", "#4299E1",
    "#9F7AEA", "#ED64A6",
    "#E2E8F0", "#2D3748", "#B7791F", "#276749", "#2C5282", "#553C9A",
    "#97266D", "#744210",
    "#F56565", "#68D391", "#63B3ED", "#F687B3", "#FBB6CE", "#C6F6D5" ]

/-- The getUserColor finalizer
`hash = hash + userId.length * 31 + userId.charCodeAt(0) * 17`
(a plain number addition, not coerced back to 32 bits). -/
def userColorHash (codes : List Int) : Int :=
  stringHash codes + (codes.length : Int) * 31 + codes.headI * 17

/-- Palette index `(Math.abs(hash) * 13) % colorPalette.length`. -/
def paletteIndex (codes : List Int) : Nat :=
  ((userColorHash codes).natAbs * 13) % colorPalette.length

/-- The generateHashColor seed
`hash = hash + userId.length * 1000 + userId.charCodeAt(len - 1) * 100`. -/
def genColorHash (codes : List Int) : Int :=
  stringHash codes + (codes.length : Int) * 1000 + codes.getLastD 0 * 100

/-- The HSL components of the fallback color:
`hue = Math.abs(hash * 7) % 360`,
`saturation = 70 + (Math.abs(hash >> 8) % 25)`,
`lightness = 45 + (Math.abs(hash >> 16) % 20)`.
The signed shifts coerce to 32 bits and floor-divide by a power of two. -/
def hslParts (codes : List Int) : Nat × Nat × Nat :=
  ((genColorHash codes * 7).natAbs % 360,
   70 + ((toInt32 (genColorHash codes)).fdiv 256).natAbs % 25,
   45 + ((toInt32 (genColorHash codes)).fdiv 65536).natAbs % 20)

/-- generateHashColor: render the HSL components as a CSS color string. -/
def generateHashColor (codes : List Int) : String :=
  let p := hslParts codes
  "hsl(" ++ toString p.1 ++ ", " ++ toString p.2.1 ++ "%, " ++
    toString p.2.2 ++ "%)"

/-- The per-session color cache (a JavaScript Map in insertion order). -/
abbrev ColorMap := List (String × String)

/-- getUserColor: return the memoized color when present; otherwise pick
the palette color at the hash index, falling back to generateHashColor
when a different currently-online user already holds that color, and
record the assignment in the cache. -/
def getUserColor (onlineUsers : List String) (m : ColorMap) (uid : String) :
    String × ColorMap :=
  match m.lookup uid with
  | some c => (c, m)
  | none =>
    let selected := colorPalette.getD (paletteIndex (charCodes uid)) ""
    let conflict := m.any (fun e =>
      e.2 == selected && e.1 != uid && onlineUsers.contains e.1)
    let chosen :=
      if conflict then generateHashColor (charCodes uid) else selected
    (chosen, m ++ [(uid, chosen)])

/-- Replace the binding for a key in place when present, append otherwise
(the JavaScript Map.set discipline on an insertion-ordered map). -/
def setAssoc (m : List (String × β)) (k : String) (v : β) :
    List (String × β) :=
  match m with
  | [] => [(k, v)]
  | e :: rest => if e.1 == k then (k, v) :: rest else e :: setAssoc rest k v

/-- Remove every binding for a key (Map.delete / Set.delete). -/
def eraseAssoc (m : List (String × β)) (k : String) : List (String × β) :=
  m.filter (fun e => e.1 != k)

/-- Add an element to an insertion-ordered set unless already present
(the JavaScript Set.add discipline). -/
def insertOnce (s : List String) (u : String) : List String :=
  if u ∈ s then s else s ++ [u]

/-- A remote cursor decoration entry as stored in the userCursors map. -/
structure CursorEntry where
  lineNumber : Int
  column : Int
  username : String
  color : String
  deriving DecidableEq

/-- The presence-related component state: online user ids, the color
cache, remote cursors and selections, the typing set with its per-user
5-second expiry deadlines, and the duplicate-leave suppression marks with
their 5-second clear deadlines. -/
structure Presence where
  onlineUsers : List String
  userColorMap : ColorMap
  userCursors : List (String × CursorEntry)
  userSelections : List String
  typingUsers : List String
  typingExpiry : List (String × Int)
  processedUserLeft : List (String × Int)
  deriving DecidableEq

/-- Milliseconds after which an inactive typing flag self-clears. -/
def typingWindowMs : Int := 5000

/-- Milliseconds for which a duplicate user-left delivery is suppressed. -/
def userLeftSuppressMs : Int := 5000

/-- The user-typing handler: ignore an echo of the local user, otherwise
set the typing flag, cancel any previous 5-second timer for that user and
arm a fresh one expiring at `now + 5000` (re-arm, never stacked). -/
def onUserTyping (selfId : Option String) (st : Presence) (uid : String)
    (now : Int) : Presence :=
  if selfId == some uid then st
  else
    { st with
      typingUsers := insertOnce st.typingUsers uid,
      typingExpiry := setAssoc st.typingExpiry uid (now + typingWindowMs) }

/-- The typing timer firing for a user: clear the typing flag and drop
the timer entry. -/
def fireTypingExpiry (st : Presence) (uid : String) : Presence :=
  { st with
    typingUsers := st.typingUsers.filter (fun u => u != uid),
    typingExpiry := eraseAssoc st.typingExpiry uid }

/-- Observable side effects of the presence handlers beyond the state. -/
inductive PresenceEffect where
  | userLeftNotice (username : String)
  deriving DecidableEq

/-- The user-left handler: a delivery for a user that is still marked as
processed is dropped with no effect; otherwise the user is marked (the
mark scheduled to clear 5 seconds later), removed from the online list,
the color cache, the cursor and selection maps and the typing set, and
one user-left notification is shown. -/
def onUserLeft (st : Presence) (uid username : String) (now : Int) :
    Presence × List PresenceEffect :=
  if (st.processedUserLeft.lookup uid).isSome then (st, [])
  else
    ({ st with
        processedUserLeft :=
          setAssoc st.processedUserLeft uid (now + userLeftSuppressMs),
        onlineUsers := st.onlineUsers.filter (fun u => u != uid),
        userColorMap := eraseAssoc st.userColorMap uid,
        userCursors := eraseAssoc st.userCursors uid,
        userSelections := st.userSelections.filter (fun u => u != uid),
        typingUsers := st.typingUsers.filter (fun u => u != uid) },
     [PresenceEffect.userLeftNotice username])

/-- The suppression-mark timer firing: forget that a leave was processed
so a later genuine leave for the same user is handled again. -/
def clearUserLeftMark (st : Presence) (uid : String) : Presence :=
  { st with processedUserLeft := eraseAssoc st.processedUserLeft uid }

/-- The cursor-moved handler: ignore an echo of the local cursor,
otherwise look up (and memoize) the sender color and update that user
entry in the userCursors map. The typing state is never touched. -/
def onCursorPositionChanged (selfId : Option String) (st : Presence)
    (uid username : String) (line col : Int) : Presence :=
  if selfId == some uid then st
  else
    let gc := getUserColor st.onlineUsers st.userColorMap uid
    { st with
      userColorMap := gc.2,
      userCursors :=
        setAssoc st.userCursors uid ⟨line, col, username, gc.1⟩ }

/-- Observable effects of handleSyncContent, in program order. -/
inductive SyncEffect where
  | msgLoading (key : String)
  | warnCooldown (remainingSeconds : Int)
  | emitRequestCreatorSave (roomId : String)
  | awaitConfirmation (timeoutMs : Nat)
  | sleep (ms : Nat)
  | fetchRoom (roomId : String) (skipCache : Bool)
  | setModelLanguage (lang : String)
  | yjsReplace (content : String) (origin : String)
  | editorSetValue (content : String)
  | msgSuccess (key : String)
  | msgError (key : String)
  | navigateDashboard
  deriving DecidableEq

/-- The fields of the fetched room record that the sync path reads
(null-able in JavaScript, hence Option). -/
structure RoomData where
  content : Option String
  language : Option String
  deriving DecidableEq

/-- Outcome of the durable-store fetch: a response body (possibly null),
or a thrown request error carrying an optional HTTP status. -/
inductive FetchOutcome where
  | ok (room : Option RoomData)
  | fail (status : Option Nat)
  deriving DecidableEq

/-- The component state read and written by handleSyncContent. -/
structure SyncState where
  syncExecuting : Bool
  isSyncing : Bool
  lastSyncTime : Option Int
  currentLanguage : String
  lastSavedContent : String
  lastSentContentHash : Option String
  deriving DecidableEq

/-- Externally-determined inputs of one handleSyncContent invocation:
the identifiers and role, the clock at entry and at completion, whether
the creator confirmation arrives before the 10-second timeout, the fetch
outcome, which editor backends are available, and whether the bulk
replace throws. -/
structure SyncEnv where
  roomId : String
  roomLoaded : Bool
  isAdmin : Bool
  now : Int
  confirmed : Bool
  fetch : FetchOutcome
  yjsAvailable : Bool
  editorAvailable : Bool
  replaceThrows : Bool
  completionTime : Int
  deriving DecidableEq

/-- The sync cooldown of one minute, in milliseconds. -/
def cooldownMs : Int := 60000

/-- The cooldown guard `lastSyncTime && (now - lastSyncTime) < COOLDOWN`:
a recorded nonzero timestamp less than a minute old blocks the sync. -/
def cooldownActive (st : SyncState) (now : Int) : Bool :=
  match st.lastSyncTime with
  | some t => t != 0 && now - t < cooldownMs
  | none => false

/-- handleSyncContent. In order: the busy-flag re-entry guard, the
missing-room / already-syncing guard, the cooldown guard (each an early
return); then the busy and syncing flags are set, a non-admin emits
request-creator-save and awaits the confirmation with a 10-second
timeout followed by a fixed 500 ms sleep, the durable content is fetched
with the cache skipped, the language is aligned, and the content is
pushed into the live replica (Y.js transaction when available, editor
setValue otherwise), recording the new saved content, its hash and the
completion time; any fetch error aborts with a localized message (a 404
maps to the room-not-found message) and every post-guard path releases
both flags in the finally block. -/
def handleSyncContent (st : SyncState) (env : SyncEnv) :
    SyncState × List SyncEffect :=
  if st.syncExecuting then (st, [])
  else if env.roomId == "" || !env.roomLoaded || st.isSyncing then (st, [])
  else if cooldownActive st env.now then
    (st, [SyncEffect.warnCooldown
      ((cooldownMs - (env.now - st.lastSyncTime.getD 0) + 999) / 1000)])
  else
    let st1 :=
      { st with syncExecuting := true, isSyncing := true }
    let pre : List SyncEffect :=
      SyncEffect.msgLoading "editor.syncing" ::
      (if env.isAdmin then [] else
        [SyncEffect.emitRequestCreatorSave env.roomId,
         SyncEffect.awaitConfirmation 10000,
         SyncEffect.sleep 500]) ++
      [SyncEffect.fetchRoom env.roomId true]
    match env.fetch with
    | FetchOutcome.fail status =>
        ({ st1 with syncExecuting := false, isSyncing := false },
         pre ++ [SyncEffect.msgError
           (if status == some 404 then "room.roomNotFound"
            else "editor.syncFailed")])
    | FetchOutcome.ok none =>
        ({ st1 with syncExecuting := false, isSyncing := false },
         pre ++ [SyncEffect.msgError "editor.syncFailed"])
    | FetchOutcome.ok (some room) =>
        let langNew :=
          match room.language with
          | some l => if l != "" && l != st1.currentLanguage then some l
                      else none
          | none => none
        let st2 :=
          { st1 with currentLanguage := langNew.getD st1.currentLanguage }
        let langEff : List SyncEffect :=
          match langNew with
          | some l =>
            if env.editorAvailable then [SyncEffect.setModelLanguage l]
            else []
          | none => []
        let c := room.content.getD ""
        if env.yjsAvailable then
          if env.replaceThrows then
            ({ st2 with syncExecuting := false, isSyncing := false },
             pre ++ langEff ++ [SyncEffect.msgError "editor.syncFailed"])
          else
            ({ st2 with
                syncExecuting := false, isSyncing := false,
                lastSavedContent := c,
                lastSentContentHash := some (simpleHash c),
                lastSyncTime := some env.completionTime },
             pre ++ langEff ++
               [SyncEffect.yjsReplace c "sync-from-creator",
                SyncEffect.msgSuccess "editor.syncSuccess"])
        else if env.editorAvailable then
          if env.replaceThrows then
            ({ st2 with syncExecuting := false, isSyncing := false },
             pre ++ langEff ++ [SyncEffect.msgError "editor.syncFailed"])
          else
            ({ st2 with
                syncExecuting := false, isSyncing := false,
                lastSavedContent := c,
                lastSentContentHash := some (simpleHash c),
                lastSyncTime := some env.completionTime },
             pre ++ langEff ++
               [SyncEffect.editorSetValue c,
                SyncEffect.msgSuccess "editor.syncSuccess"])
        else
          ({ st2 with syncExecuting := false, isSyncing := false },
           pre ++ langEff)

/-- The pending-confirmation slot held while a requester awaits the
creator: whether the promise is unresolved and whether its 10-second
timeout timer is still armed. -/
structure PendingSave where
  pendingActive : Bool
  timerActive : Bool
  deriving DecidableEq

/-- The content-saved-confirmation handler: when a wait is pending,
clear the timeout timer and resolve the wait with true; otherwise do
nothing. -/
def onContentSavedConfirmation (p : PendingSave) :
    PendingSave × Option Bool :=
  if p.pendingActive then (⟨false, false⟩, some true) else (p, none)

/-- The 10-second timeout firing: resolve a still-pending wait with
false and clear both slots. -/
def onSaveTimeoutFire (p : PendingSave) : PendingSave × Option Bool :=
  (⟨false, false⟩, if p.pendingActive then some false else none)

/-- The catch branch of the 3-second periodic room poll, the one code
path that navigates away on a 404 from the room fetch. -/
def periodicSyncOnError (status : Option Nat) : List SyncEffect :=
  if status == some 404 then [SyncEffect.navigateDashboard] else []

/-- The socket-service state relevant to joinRoom: whether a socket
object exists, whether it reports connected, and the stored room id. -/
structure SocketState where
  socketExists : Bool
  socketConnected : Bool
  currentRoomId : Option String
  deriving DecidableEq

/-- Network messages emitted by the socket service. -/
inductive SocketEffect where
  | emitJoinRoom (roomId : String)
  deriving DecidableEq

/-- SocketService.joinRoom: log-and-return when the socket is missing or
not connected; otherwise record the room id and emit the join-room
message. -/
def joinRoom (st : SocketState) (roomId : String) :
    SocketState × List SocketEffect :=
  if !st.socketExists then (st, [])
  else if !st.socketConnected then (st, [])
  else ({ st with currentRoomId := some roomId },
        [SocketEffect.emitJoinRoom roomId])

/-! Helper lemmas about the map and set primitives. -/

theorem lookup_setAssoc_self (m : List (String × β)) (k : String) (v : β) :
    (setAssoc m k v).lookup k = some v := by
  induction m with
  | nil => simp [setAssoc, List.lookup]
  | cons e rest ih =>
    obtain ⟨a, b⟩ := e
    by_cases h : a = k
    · simp [setAssoc, h, List.lookup]
    · have hb : (k == a) = false := beq_eq_false_iff_ne.mpr (Ne.symm h)
      have hab : (a == k) = false := beq_eq_false_iff_ne.mpr h
      simp [setAssoc, hab, List.lookup, hb, ih]

theorem lookup_setAssoc_ne (m : List (String × β)) (k k2 : String) (v : β)
    (h : k2 ≠ k) : (setAssoc m k v).lookup k2 = m.lookup k2 := by
  have hbk : (k2 == k) = false := beq_eq_false_iff_ne.mpr h
  induction m with
  | nil => simp [setAssoc, List.lookup, hbk]
  | cons e rest ih =>
    obtain ⟨a, b⟩ := e
    by_cases he : a = k
    · subst he
      simp [setAssoc, List.lookup, hbk]
    · have hae : (a == k) = false := beq_eq_false_iff_ne.mpr he
      simp only [setAssoc, hae, Bool.false_eq_true, if_false, List.lookup]
      cases hk2a : k2 == a <;> simp [ih]

theorem lookup_eraseAssoc_self (m : List (String × β)) (k : String) :
    (eraseAssoc m k).lookup k = none := by
  induction m with
  | nil => simp [eraseAssoc]
  | cons e rest ih =>
    obtain ⟨a, b⟩ := e
    by_cases h : a = k
    · have hab : (a != k) = false := by simp [h]
      simpa [eraseAssoc, List.filter_cons, hab] using ih
    · have hab : (a != k) = true := by simp [h]
      have hb : (k == a) = false := beq_eq_false_iff_ne.mpr (Ne.symm h)
      simpa [eraseAssoc, List.filter_cons, hab, List.lookup, hb] using ih

theorem lookup_append_of_none (m l : List (String × β)) (k : String)
    (h : m.lookup k = none) : (m ++ l).lookup k = l.lookup k := by
  induction m with
  | nil => simp
  | cons e rest ih =>
    obtain ⟨a, b⟩ := e
    by_cases he : k = a
    · simp [List.lookup, he] at h
    · have hb : (k == a) = false := beq_eq_false_iff_ne.mpr he
      simp only [List.lookup, hb, List.cons_append] at h ⊢
      exact ih h

/-- The number of bindings a key holds in an association list. -/
def countKey (m : List (String × β)) (k : String) : Nat :=
  (m.filter (fun e => e.1 == k)).length

theorem countKey_setAssoc (m : List (String × β)) (k : String) (v : β) :
    countKey (setAssoc m k v) k = max (countKey m k) 1 := by
  induction m with
  | nil => simp [setAssoc, countKey]
  | cons e rest ih =>
    obtain ⟨a, b⟩ := e
    by_cases h : a = k
    · simp [setAssoc, countKey, h, List.filter_cons] at ih ⊢
    · simp [setAssoc, countKey, h, List.filter_cons] at ih ⊢
      exact ih

theorem not_mem_filter_ne (l : List String) (u : String) :
    u ∉ l.filter (fun x => x != u) := by
  intro hmem
  simp [List.mem_filter] at hmem

theorem mem_insertOnce_self (s : List String) (u : String) :
    u ∈ insertOnce s u := by
  by_cases h : u ∈ s <;> simp [insertOnce, h]

/-! C6: the per-user typing flag and its 5-second re-armed window. -/

/-- Claim C6: a typing event from another user at time t0 sets the
typing flag and arms the single per-user timer to clear it exactly
5 seconds later, at t0 + 5000 ms; a further event at t1 replaces that
deadline with t1 + 5000 (re-arm, never a second stacked timer), and the
timer firing clears the flag and the timer entry. -/
theorem typing_flag_five_second_window (self : Option String)
    (st : Presence) (uid : String) (t0 t1 : Int)
    (hself : self ≠ some uid) :
    typingWindowMs = 5000 ∧
    uid ∈ (onUserTyping self st uid t0).typingUsers ∧
    (onUserTyping self st uid t0).typingExpiry.lookup uid
        = some (t0 + 5000) ∧
    (countKey st.typingExpiry uid ≤ 1 →
      countKey (onUserTyping self st uid t0).typingExpiry uid = 1) ∧
    (onUserTyping self (onUserTyping self st uid t0) uid t1).typingExpiry.lookup
        uid = some (t1 + 5000) ∧
    uid ∉ (fireTypingExpiry (onUserTyping self st uid t0) uid).typingUsers ∧
    (fireTypingExpiry (onUserTyping self st uid t0) uid).typingExpiry.lookup
        uid = none := by
  have hbeq : (self == some uid) = false := beq_eq_false_iff_ne.mpr hself
  refine ⟨rfl, ?_, ?_, ?_, ?_, ?_, ?_⟩
  · simp only [onUserTyping, hbeq, Bool.false_eq_true, if_false]
    exact mem_insertOnce_self _ _
  · simp only [onUserTyping, hbeq, Bool.false_eq_true, if_false]
    simpa [typingWindowMs] using
      lookup_setAssoc_self st.typingExpiry uid (t0 + typingWindowMs)
  · intro hle
    simp only [onUserTyping, hbeq, Bool.false_eq_true, if_false]
    rw [countKey_setAssoc]
    omega
  · simp only [onUserTyping, hbeq, Bool.false_eq_true, if_false]
    simpa [typingWindowMs] using
      lookup_setAssoc_self (setAssoc st.typingExpiry uid
        (t0 + typingWindowMs)) uid (t1 + typingWindowMs)
  · simp only [onUserTyping, fireTypingExpiry, hbeq, Bool.false_eq_true,
      if_false]
    exact not_mem_filter_ne _ _
  · simp only [onUserTyping, fireTypingExpiry, hbeq, Bool.false_eq_true,
      if_false]
    exact lookup_eraseAssoc_self _ _

/-- Witness for C6 at a concrete presence state that already holds a
typing timer for the user. -/
theorem typing_flag_five_second_window_witness :
    (some "me" : Option String) ≠ some "u2" ∧
    (onUserTyping (some "me")
        ⟨["u2"], [], [], [], [], [("u2", 4000)], []⟩ "u2" 9000).typingExpiry.lookup
        "u2" = some 14000 :=
  ⟨by decide,
   (typing_flag_five_second_window (some "me")
      ⟨["u2"], [], [], [], [], [("u2", 4000)], []⟩ "u2" 9000 0
      (by decide)).2.2.1⟩

/-! C7: duplicate user-left deliveries inside the 5-second window. -/

/-- Claim C7: a first user-left delivery performs the removal side
effects and the notification exactly once and marks the user, the mark
scheduled to clear 5 seconds later; a second delivery while the mark
stands leaves the state untouched and shows nothing; once the mark is
cleared a later genuine leave is processed again. -/
theorem userLeft_duplicate_suppressed (st : Presence)
    (uid username : String) (now now2 now3 : Int)
    (h : st.processedUserLeft.lookup uid = none) :
    userLeftSuppressMs = 5000 ∧
    (onUserLeft st uid username now).2
        = [PresenceEffect.userLeftNotice username] ∧
    uid ∉ (onUserLeft st uid username now).1.onlineUsers ∧
    (onUserLeft st uid username now).1.userColorMap.lookup uid = none ∧
    (onUserLeft st uid username now).1.userCursors.lookup uid = none ∧
    uid ∉ (onUserLeft st uid username now).1.userSelections ∧
    uid ∉ (onUserLeft st uid username now).1.typingUsers ∧
    (onUserLeft st uid username now).1.processedUserLeft.lookup uid
        = some (now + 5000) ∧
    onUserLeft (onUserLeft st uid username now).1 uid username now2
        = ((onUserLeft st uid username now).1, []) ∧
    (onUserLeft (clearUserLeftMark (onUserLeft st uid username now).1 uid)
        uid username now3).2
        = [PresenceEffect.userLeftNotice username] := by
  refine ⟨rfl, ?_, ?_, ?_, ?_, ?_, ?_, ?_, ?_, ?_⟩
  · simp [onUserLeft, h]
  · simp only [onUserLeft, h, Option.isSome_none, Bool.false_eq_true,
      if_false]
    exact not_mem_filter_ne _ _
  · simp only [onUserLeft, h, Option.isSome_none, Bool.false_eq_true,
      if_false]
    exact lookup_eraseAssoc_self _ _
  · simp only [onUserLeft, h, Option.isSome_none, Bool.false_eq_true,
      if_false]
    exact lookup_eraseAssoc_self _ _
  · simp only [onUserLeft, h, Option.isSome_none, Bool.false_eq_true,
      if_false]
    exact not_mem_filter_ne _ _
  · simp only [onUserLeft, h, Option.isSome_none, Bool.false_eq_true,
      if_false]
    exact not_mem_filter_ne _ _
  · simp only [onUserLeft, h, Option.isSome_none, Bool.false_eq_true,
      if_false]
    simpa [userLeftSuppressMs] using
      lookup_setAssoc_self st.processedUserLeft uid
        (now + userLeftSuppressMs)
  · have hmark : ((onUserLeft st uid username now).1.processedUserLeft.lookup
        uid).isSome = true := by
      simp only [onUserLeft, h, Option.isSome_none, Bool.false_eq_true,
        if_false]
      simp [lookup_setAssoc_self]
    generalize hg : (onUserLeft st uid username now).1 = st2 at hmark ⊢
    simp [onUserLeft, hmark]
  · have hclear : ((clearUserLeftMark (onUserLeft st uid username now).1
        uid).processedUserLeft.lookup uid) = none := by
      simp [clearUserLeftMark, lookup_eraseAssoc_self]
    generalize hg :
      clearUserLeftMark (onUserLeft st uid username now).1 uid = st3
      at hclear ⊢
    simp [onUserLeft, hclear]

/-- Witness for C7 at a concrete presence state with the user online. -/
theorem userLeft_duplicate_suppressed_witness :
    (⟨["u2"], [("u2", "#E53E3E")], [], [], ["u2"], [], []⟩ :
        Presence).processedUserLeft.lookup "u2" = none ∧
    (onUserLeft ⟨["u2"], [("u2", "#E53E3E")], [], [], ["u2"], [], []⟩
        "u2" "Bob" 1000).2 = [PresenceEffect.userLeftNotice "Bob"] :=
  ⟨by decide,
   (userLeft_duplicate_suppressed
      ⟨["u2"], [("u2", "#E53E3E")], [], [], ["u2"], [], []⟩
      "u2" "Bob" 1000 2000 9000 (by decide)).2.1⟩

/-! C3: determinism of the color assignment. -/

/-- A color assigner that saw user "a" and then user "f", both online. -/
def assignerRunAF : ColorMap :=
  (getUserColor ["a", "f"] (getUserColor ["a", "f"] [] "a").2 "f").2

/-- An independently-initialized assigner that saw the same online set
but in the other order: user "f" and then user "a". -/
def assignerRunFA : ColorMap :=
  (getUserColor ["a", "f"] (getUserColor ["a", "f"] [] "f").2 "a").2

/-- Counterexample to C3: the userIds "a" and "f" hash to the same
palette index, so the assigner that meets "f" second hands it the HSL
fallback while the assigner that meets "f" first hands it the palette
color — the same userId, the same palette, hash and online set, two
different colors. -/
theorem getUserColor_order_dependent :
    assignerRunAF.lookup "f" ≠ assignerRunFA.lookup "f" := by decide

/-- Amended C3: repeated calls are memoized — once a color is assigned,
every later call returns the same color and leaves the cache unchanged —
and in the collision-free case the assigned color is the palette entry
at the userId hash index, a pure function of the userId alone, hence
identical across independently-initialized assigners; only under a
palette collision does the result depend on the assignment order. -/
theorem getUserColor_lookup_result (online : List String) (m : ColorMap)
    (uid : String) :
    (getUserColor online m uid).2.lookup uid
      = some (getUserColor online m uid).1 := by
  cases hl : m.lookup uid with
  | some c0 => simp [getUserColor, hl]
  | none =>
    simp only [getUserColor, hl]
    rw [lookup_append_of_none m _ uid hl]
    simp [List.lookup]

theorem getUserColor_of_lookup_some (online : List String) (m : ColorMap)
    (uid c : String) (h : m.lookup uid = some c) :
    getUserColor online m uid = (c, m) := by
  simp [getUserColor, h]

theorem getUserColor_memoized_and_collision_free_pure :
    (∀ (online : List String) (m : ColorMap) (uid c : String)
        (m2 : ColorMap), getUserColor online m uid = (c, m2) →
        getUserColor online m2 uid = (c, m2)) ∧
    (∀ (online : List String) (m : ColorMap) (uid : String),
        m.lookup uid = none →
        (m.any fun e =>
          e.2 == colorPalette.getD (paletteIndex (charCodes uid)) "" &&
          e.1 != uid && online.contains e.1) = false →
        (getUserColor online m uid).1 =
          colorPalette.getD (paletteIndex (charCodes uid)) "") := by
  constructor
  · intro online m uid c m2 hcall
    have ha := getUserColor_lookup_result online m uid
    rw [hcall] at ha
    exact getUserColor_of_lookup_some online m2 uid c ha
  · intro online m uid hl hconf
    simp only [getUserColor, hl, hconf, Bool.false_eq_true, if_false]

/-- Witness for the amended C3: assigning "a" on a fresh assigner and
asking again returns the memoized palette color. -/
theorem getUserColor_memoized_witness :
    getUserColor ["a"] [] "a" = ("#FF8C00", [("a", "#FF8C00")]) ∧
    getUserColor ["a"] [("a", "#FF8C00")] "a"
      = ("#FF8C00", [("a", "#FF8C00")]) :=
  ⟨by decide,
   getUserColor_memoized_and_collision_free_pure.1 ["a"] [] "a"
     "#FF8C00" [("a", "#FF8C00")] (by decide)⟩

/-! C10: joinRoom on a missing or disconnected socket. -/

/-- Claim C10: when the transport socket is null or not connected,
joinRoom is a silent no-op — it emits no join-room message, leaves the
stored currentRoomId unchanged, and returns normally without raising an
error. -/
theorem joinRoom_silent_noop_when_disconnected (st : SocketState)
    (roomId : String)
    (h : st.socketExists = false ∨ st.socketConnected = false) :
    joinRoom st roomId = (st, []) := by
  rcases h with h | h
  · simp [joinRoom, h]
  · cases hex : st.socketExists <;> simp [joinRoom, h, hex]

/-- Witness for C10 at a concrete state with a socket object present but
not connected. -/
theorem joinRoom_silent_noop_when_disconnected_witness :
    joinRoom ⟨true, false, some "old-room"⟩ "room-1" =
      (⟨true, false, some "old-room"⟩, []) :=
  joinRoom_silent_noop_when_disconnected ⟨true, false, some "old-room"⟩
    "room-1" (Or.inr rfl)

/-! C9: ranges of the HSL fallback generator. -/

/-- Claim C9: for every nonempty userId the fallback generator yields an
integer hue below 360, an integer saturation between 70 and 95 percent,
and an integer lightness between 45 and 65 percent. -/
theorem hslParts_ranges (uid : String) (_h : uid ≠ "") :
    (hslParts (charCodes uid)).1 < 360 ∧
    70 ≤ (hslParts (charCodes uid)).2.1 ∧
    (hslParts (charCodes uid)).2.1 ≤ 95 ∧
    45 ≤ (hslParts (charCodes uid)).2.2 ∧
    (hslParts (charCodes uid)).2.2 ≤ 65 := by
  refine ⟨?_, ?_, ?_, ?_, ?_⟩
  · show (genColorHash (charCodes uid) * 7).natAbs % 360 < 360
    exact Nat.mod_lt _ (by norm_num)
  · show 70 ≤ 70 +
      ((toInt32 (genColorHash (charCodes uid))).fdiv 256).natAbs % 25
    exact Nat.le_add_right 70 _
  · show 70 +
      ((toInt32 (genColorHash (charCodes uid))).fdiv 256).natAbs % 25 ≤ 95
    have hlt : ((toInt32 (genColorHash (charCodes uid))).fdiv 256).natAbs % 25
        < 25 := Nat.mod_lt _ (by norm_num)
    omega
  · show 45 ≤ 45 +
      ((toInt32 (genColorHash (charCodes uid))).fdiv 65536).natAbs % 20
    exact Nat.le_add_right 45 _
  · show 45 +
      ((toInt32 (genColorHash (charCodes uid))).fdiv 65536).natAbs % 20 ≤ 65
    have hlt : ((toInt32 (genColorHash (charCodes uid))).fdiv 65536).natAbs % 20
        < 20 := Nat.mod_lt _ (by norm_num)
    omega

/-- Witness for C9 at the one-character userId "a". -/
theorem hslParts_ranges_witness :
    ("a" : String) ≠ "" ∧
    ((hslParts (charCodes "a")).1 < 360 ∧
     70 ≤ (hslParts (charCodes "a")).2.1 ∧
     (hslParts (charCodes "a")).2.1 ≤ 95 ∧
     45 ≤ (hslParts (charCodes "a")).2.2 ∧
     (hslParts (charCodes "a")).2.2 ≤ 65) :=
  ⟨by decide, hslParts_ranges "a" (by decide)⟩

/-! C8: the cursor handler never touches the typing state. -/

/-- Claim C8: processing an incoming cursor-moved event leaves the
typing set and the typing timers (and the online list, the selections
and the leave-suppression marks) unchanged; for a sender other than the
local user it updates the userCursors entry of exactly that sender (the
color cache may only memoize that sender's color). -/
theorem cursorMove_orthogonal_to_typing (selfId : Option String)
    (st : Presence) (uid username : String) (line col : Int) :
    (onCursorPositionChanged selfId st uid username line col).typingUsers
        = st.typingUsers ∧
    (onCursorPositionChanged selfId st uid username line col).typingExpiry
        = st.typingExpiry ∧
    (onCursorPositionChanged selfId st uid username line col).onlineUsers
        = st.onlineUsers ∧
    (onCursorPositionChanged selfId st uid username line col).userSelections
        = st.userSelections ∧
    (onCursorPositionChanged selfId st uid username line col).processedUserLeft
        = st.processedUserLeft ∧
    (selfId ≠ some uid →
      ((onCursorPositionChanged selfId st uid username line col).userCursors.lookup
          uid).isSome = true ∧
      ∀ v, v ≠ uid →
        (onCursorPositionChanged selfId st uid username line col).userCursors.lookup v
          = st.userCursors.lookup v) := by
  by_cases h : selfId = some uid
  · simp [onCursorPositionChanged, h]
  · refine ⟨?_, ?_, ?_, ?_, ?_, ?_⟩ <;>
      simp only [onCursorPositionChanged, beq_iff_eq, h, if_false]
    intro _
    exact ⟨by simp [lookup_setAssoc_self],
           fun v hv => lookup_setAssoc_ne _ _ _ _ hv⟩

/-- Witness for C8 at a concrete state holding one remote cursor and one
typing user. -/
theorem cursorMove_orthogonal_to_typing_witness :
    (some "me" : Option String) ≠ some "u2" ∧
    (onCursorPositionChanged (some "me")
        ⟨["u2"], [], [], [], ["u2"], [("u2", 7000)], []⟩
        "u2" "Bob" 3 14).typingUsers = ["u2"] :=
  ⟨by decide,
   (cursorMove_orthogonal_to_typing (some "me")
      ⟨["u2"], [], [], [], ["u2"], [("u2", 7000)], []⟩
      "u2" "Bob" 3 14).1⟩

/-! C1, C2, C4, C5: the save-arbitration sync protocol. -/

theorem handleSyncContent_lastSyncTime (st : SyncState) (env : SyncEnv) :
    (handleSyncContent st env).1.lastSyncTime = st.lastSyncTime ∨
    ((handleSyncContent st env).1.lastSyncTime = some env.completionTime ∧
     SyncEffect.msgSuccess "editor.syncSuccess"
       ∈ (handleSyncContent st env).2) := by
  unfold handleSyncContent
  repeat' split
  all_goals simp

/-- Claim C1: with no other run in progress, a sync attempt at time
`now` with a recorded nonzero last sync time `tprev` and
`now - tprev < 60000` is rejected with only a cooldown warning — no
request-creator-save, no fetch, no state change; when the cooldown guard
is off the attempt proceeds to the cache-skipping fetch; and the
recorded last sync time changes only on the successful completion path,
where it is set to the completion-time clock reading, never at request
initiation and never on a failed attempt. -/
theorem sync_cooldown_invariant (st : SyncState) (env : SyncEnv)
    (tprev : Int) :
    (st.syncExecuting = false →
     (env.roomId == "" || !env.roomLoaded || st.isSyncing) = false →
     st.lastSyncTime = some tprev → tprev ≠ 0 →
     env.now - tprev < 60000 →
       handleSyncContent st env =
         (st, [SyncEffect.warnCooldown
           ((cooldownMs - (env.now - tprev) + 999) / 1000)])) ∧
    (st.syncExecuting = false →
     (env.roomId == "" || !env.roomLoaded || st.isSyncing) = false →
     cooldownActive st env.now = false →
       SyncEffect.fetchRoom env.roomId true ∈ (handleSyncContent st env).2) ∧
    ((handleSyncContent st env).1.lastSyncTime ≠ st.lastSyncTime →
       (handleSyncContent st env).1.lastSyncTime = some env.completionTime ∧
       SyncEffect.msgSuccess "editor.syncSuccess"
         ∈ (handleSyncContent st env).2) := by
  refine ⟨?_, ?_, ?_⟩
  · intro h1 h2 hl ht hlt
    have hcool : cooldownActive st env.now = true := by
      simp [cooldownActive, cooldownMs, hl, ht, hlt]
    simp [handleSyncContent, h1, h2, hcool, hl]
  · intro h1 h2 h3
    simp only [handleSyncContent, h1, h2, h3, Bool.false_eq_true, if_false]
    repeat' split
    all_goals simp
  · intro hne
    rcases handleSyncContent_lastSyncTime st env with h | h
    · exact absurd h hne
    · exact h

/-- Concrete state and environment exercising an active cooldown. -/
def cooldownSt : SyncState := ⟨false, false, some 100000, "javascript", "", none⟩

/-- Environment for the cooldown witness: a non-admin retry 30 seconds
after the recorded sync. -/
def cooldownEnv : SyncEnv :=
  ⟨"room-1", true, false, 130000, false, FetchOutcome.ok none, true, true,
   false, 131000⟩

/-- Witness for C1: 30 seconds into the window the attempt is rejected
with a 30-second-remaining warning and an unchanged state. -/
theorem sync_cooldown_invariant_witness :
    handleSyncContent cooldownSt cooldownEnv =
      (cooldownSt, [SyncEffect.warnCooldown 30]) :=
  (sync_cooldown_invariant cooldownSt cooldownEnv 100000).1 rfl (by decide)
    rfl (by decide) (by decide)

/-- Claim C2: a second invocation while the busy flag is set (or while
isSyncing is still true) returns immediately with no network message and
no state change, and any invocation that starts with the busy flag clear
ends with it clear — the flag is released on every exit path. -/
theorem sync_single_outstanding_request (st : SyncState) (env : SyncEnv) :
    (st.syncExecuting = true → handleSyncContent st env = (st, [])) ∧
    (st.isSyncing = true → handleSyncContent st env = (st, [])) ∧
    (st.syncExecuting = false →
       (handleSyncContent st env).1.syncExecuting = false) := by
  refine ⟨?_, ?_, ?_⟩
  · intro h
    simp [handleSyncContent, h]
  · intro h
    by_cases hx : st.syncExecuting = true
    · simp [handleSyncContent, hx]
    · simp only [Bool.not_eq_true] at hx
      simp [handleSyncContent, hx, h]
  · intro h
    unfold handleSyncContent
    repeat' split
    all_goals simp [h]

/-- Witness for C2: a busy-flagged state returns unchanged with an empty
trace. -/
theorem sync_single_outstanding_request_witness :
    handleSyncContent ⟨true, false, none, "javascript", "", none⟩ cooldownEnv
      = (⟨true, false, none, "javascript", "", none⟩, []) :=
  (sync_single_outstanding_request
    ⟨true, false, none, "javascript", "", none⟩ cooldownEnv).1 rfl

/-- Claim C4: a non-admin run that passes the guards emits
request-creator-save, awaits the confirmation with a 10-second timeout,
sleeps a fixed 500 ms and then fetches the durable content with the
cache skipped, in that order; the timeout handler resolves a pending
wait to false and the confirmation handler resolves it to true, each
clearing the pending slot and timer; and the run is oblivious to whether
the confirmation arrived — it proceeds identically either way. -/
theorem sync_nonadmin_request_flow (st : SyncState) (env : SyncEnv)
    (h1 : st.syncExecuting = false)
    (h2 : (env.roomId == "" || !env.roomLoaded || st.isSyncing) = false)
    (h3 : cooldownActive st env.now = false)
    (h4 : env.isAdmin = false) :
    (∃ rest, (handleSyncContent st env).2 =
      [SyncEffect.msgLoading "editor.syncing",
       SyncEffect.emitRequestCreatorSave env.roomId,
       SyncEffect.awaitConfirmation 10000,
       SyncEffect.sleep 500,
       SyncEffect.fetchRoom env.roomId true] ++ rest) ∧
    (∀ p : PendingSave, p.pendingActive = true →
       onSaveTimeoutFire p = (⟨false, false⟩, some false)) ∧
    (∀ p : PendingSave, p.pendingActive = true →
       onContentSavedConfirmation p = (⟨false, false⟩, some true)) ∧
    (∀ b : Bool, handleSyncContent st { env with confirmed := b }
       = handleSyncContent st env) := by
  refine ⟨?_, ?_, ?_, ?_⟩
  · simp only [handleSyncContent, h1, h2, h3, h4, Bool.false_eq_true,
      if_false]
    repeat' split
    all_goals exact ⟨_, rfl⟩
  · intro p hp
    simp [onSaveTimeoutFire, hp]
  · intro p hp
    simp [onContentSavedConfirmation, hp]
  · intro b
    cases env
    rfl

/-- Witness for C4 at the concrete cooldown-free environment. -/
theorem sync_nonadmin_request_flow_witness :
    ∃ rest,
      (handleSyncContent ⟨false, false, none, "javascript", "", none⟩
        cooldownEnv).2 =
      [SyncEffect.msgLoading "editor.syncing",
       SyncEffect.emitRequestCreatorSave "room-1",
       SyncEffect.awaitConfirmation 10000,
       SyncEffect.sleep 500,
       SyncEffect.fetchRoom "room-1" true] ++ rest :=
  (sync_nonadmin_request_flow ⟨false, false, none, "javascript", "", none⟩
    cooldownEnv rfl (by decide) (by decide) rfl).1

/-- Concrete state and environment for a 404 fetch failure inside the
protocol. -/
def fetch404St : SyncState := ⟨false, false, none, "javascript", "", none⟩

/-- Environment in which the durable fetch throws with HTTP 404. -/
def fetch404Env : SyncEnv :=
  ⟨"room-1", true, false, 1000000, false, FetchOutcome.fail (some 404),
   true, true, false, 1000500⟩

/-- Counterexample to C5: when the fetch fails with 404 mid-protocol the
whole observable trace ends with the localized room-not-found error and
contains no navigation away from the room — the 404 redirect exists only
in the separate periodic poll, not in handleSyncContent. -/
theorem sync_404_no_redirect :
    (handleSyncContent fetch404St fetch404Env).2 =
      [SyncEffect.msgLoading "editor.syncing",
       SyncEffect.emitRequestCreatorSave "room-1",
       SyncEffect.awaitConfirmation 10000,
       SyncEffect.sleep 500,
       SyncEffect.fetchRoom "room-1" true,
       SyncEffect.msgError "room.roomNotFound"] ∧
    SyncEffect.navigateDashboard
      ∉ (handleSyncContent fetch404St fetch404Env).2 := by
  decide

/-- Amended C5: a failed durable fetch aborts the protocol without
mutating the live replica — no bulk replace, no setValue, the saved
content, its hash and the last sync time unchanged — and surfaces a
localized error (room-not-found for a 404, the generic sync failure
otherwise), but it does not redirect the client; the redirect on 404
lives only in the periodic room poll. -/
theorem sync_fetch_failure_aborts (st : SyncState) (env : SyncEnv)
    (status : Option Nat) (h : env.fetch = FetchOutcome.fail status) :
    (∀ c o, SyncEffect.yjsReplace c o ∉ (handleSyncContent st env).2) ∧
    (∀ c, SyncEffect.editorSetValue c ∉ (handleSyncContent st env).2) ∧
    SyncEffect.navigateDashboard ∉ (handleSyncContent st env).2 ∧
    (handleSyncContent st env).1.lastSavedContent = st.lastSavedContent ∧
    (handleSyncContent st env).1.lastSentContentHash
      = st.lastSentContentHash ∧
    (handleSyncContent st env).1.lastSyncTime = st.lastSyncTime ∧
    (st.syncExecuting = false →
     (env.roomId == "" || !env.roomLoaded || st.isSyncing) = false →
     cooldownActive st env.now = false →
       SyncEffect.msgError
         (if status == some 404 then "room.roomNotFound"
          else "editor.syncFailed") ∈ (handleSyncContent st env).2) ∧
    periodicSyncOnError (some 404) = [SyncEffect.navigateDashboard] := by
  refine ⟨?_, ?_, ?_, ?_, ?_, ?_, ?_, ?_⟩
  · intro c o
    simp only [handleSyncContent, h]
    repeat' split
    all_goals simp
  · intro c
    simp only [handleSyncContent, h]
    repeat' split
    all_goals simp
  · simp only [handleSyncContent, h]
    repeat' split
    all_goals simp
  · simp only [handleSyncContent, h]
    repeat' split
    all_goals simp
  · simp only [handleSyncContent, h]
    repeat' split
    all_goals simp
  · simp only [handleSyncContent, h]
    repeat' split
    all_goals simp
  · intro h1 h2 h3
    simp [handleSyncContent, h1, h2, h3, h]
  · simp [periodicSyncOnError]

/-- Witness for the amended C5 at the concrete 404 environment. -/
theorem sync_fetch_failure_aborts_witness :
    fetch404Env.fetch = FetchOutcome.fail (some 404) ∧
    SyncEffect.navigateDashboard
      ∉ (handleSyncContent fetch404St fetch404Env).2 :=
  ⟨rfl, (sync_fetch_failure_aborts fetch404St fetch404Env (some 404)
    rfl).2.2.1⟩

end CollabEditor
